import Mathlib

/-!
Verification development for the photo_editor_tg repository.

The development shallowly embeds the orchestration core of the
application: the workflow controller state of App.tsx, the generation
client of src/services/geminiService.ts and the dispatch client of the
telegram service file (src/unnamed/part_001). Asynchronous code is
modelled by sequential state passing: each handler is a function from
the pre-state (plus the outcomes of the external collaborators, passed
as explicit function arguments) to the post-state it leaves behind.
Network collaborators are modelled as function parameters, so a result
that is independent of that parameter is a result obtained without any
network call.
-/

/-- Status value of App.tsx: the type field is the string literal
union of success and error. -/
inductive StatusType where
  | success
  | error
deriving DecidableEq, Repr

/-- The Status record of App.tsx (type plus message); the whole status
state slot is an Option of this record, none modelling null. -/
structure StatusMsg where
  type : StatusType
  message : String
deriving DecidableEq, Repr

/-- The uploadedImage record of App.tsx: base64 holds the full data
URI produced by fileToBase64, name the file name, mimeType the
reported MIME type. -/
structure UploadedImage where
  base64 : String
  name : String
  mimeType : String
deriving DecidableEq, Repr

/-- The React state of the App component, field for field: botToken
and chatId (credential store), prompt, uploadedImage (SourceImage),
generatedImage (GeneratedArtifact, a data URI string), isLoading (the
RequestPhase proxy: false is Idle, true is Generating or Sending),
status (OperationStatus), showConfig (the flag revealing the
credential-entry surface), showHelp and isApiKeyMissing. -/
structure AppState where
  botToken : String
  chatId : String
  prompt : String
  uploadedImage : Option UploadedImage
  generatedImage : Option String
  isLoading : Bool
  status : Option StatusMsg
  showConfig : Bool
  showHelp : Bool
  isApiKeyMissing : Bool
deriving DecidableEq, Repr

/-! Generation client (src/services/geminiService.ts) -/

/-- The ambient environment of the generation service: the value of
process.env.API_KEY, none when the variable is unset. -/
structure ApiEnv where
  apiKey : Option String
deriving DecidableEq, Repr

/-- The JavaScript truthiness test the service applies to the key:
configured means present and not the empty string. -/
def keyConfigured (env : ApiEnv) : Bool :=
  match env.apiKey with
  | none => false
  | some k => !k.isEmpty

/-- Errors that can arise on the generation path. missingKey is the
eager credential check of getAiClient; noCandidates models the runtime
type error raised when response.candidates is empty and index 0 is
taken; noImage is the explicit throw of extractImage; service wraps a
transport or service level failure message. -/
inductive GenError where
  | missingKey
  | noCandidates
  | noImage
  | service (msg : String)
deriving DecidableEq, Repr

/-- The message carried by each generation-path error, as the catch
block of handleGenerate reads it from the thrown Error value. The
noCandidates text stands for the runtime type-error text of the host,
which no claim depends on. -/
def GenError.message : GenError → String
  | .missingKey => "Google AI API Key is not configured. Please set the API_KEY environment variable in your deployment settings."
  | .noCandidates => "Cannot read properties of undefined"
  | .noImage => "No image data found in Gemini response"
  | .service msg => msg

/-- getAiClient of geminiService.ts: throws when the key is absent or
empty (JavaScript falsiness), otherwise yields the client. The client
object carries no state the model needs, so it is Unit. -/
def getAiClient (env : ApiEnv) : Except GenError Unit :=
  match env.apiKey with
  | none => .error .missingKey
  | some k => if k.isEmpty then .error .missingKey else .ok ()

/-- A request part sent to the generation service: either a text part
or an inlineData part. The data field is an Option because the
JavaScript split of the source data URI at commas, taken at index 1,
is undefined when the string holds no comma. -/
inductive ReqPart where
  | text (value : String)
  | inlineData (data : Option String) (mimeType : String)
deriving DecidableEq, Repr

/-- Response modality requested from the service. -/
inductive Modality where
  | IMAGE
deriving DecidableEq, Repr

/-- The generateContent request record: model name, content parts and
requested response modalities. -/
structure GenRequest where
  model : String
  parts : List ReqPart
  responseModalities : List Modality
deriving DecidableEq, Repr

/-- An inlineData fragment of a service response: raw base64 payload
plus its reported MIME type. -/
structure InlineData where
  data : String
  mimeType : String
deriving DecidableEq, Repr

/-- One part of a response candidate content: a text fragment, an
inline-data fragment, or neither. -/
structure ResponsePart where
  text : Option String
  inlineData : Option InlineData
deriving DecidableEq, Repr

/-- The content of one response candidate: its ordered parts list. -/
structure Content where
  parts : List ResponsePart
deriving DecidableEq, Repr

/-- One candidate of a generation response. -/
structure Candidate where
  content : Content
deriving DecidableEq, Repr

/-- The generation service response: its candidate list. -/
structure GenerateContentResponse where
  candidates : List Candidate
deriving DecidableEq, Repr

/-- The network boundary of the generation client: a function from the
request actually submitted to the transport outcome, either a
service-level failure message or a parsed response. -/
abbrev GenNet := GenRequest → Except String GenerateContentResponse

/-- The for-loop of extractImage: the first part of the list whose
inlineData field is set, scanning in order. -/
def findInlineData : List ResponsePart → Option InlineData
  | [] => none
  | p :: ps =>
    match p.inlineData with
    | some d => some d
    | none => findInlineData ps

/-- extractImage of geminiService.ts: reads the parts of candidate 0
(an empty candidate list raises a runtime type error, modelled as
noCandidates), returns the data URI built from the first inlineData
part, and throws the no-image error when candidate 0 has none. -/
def extractImage (response : GenerateContentResponse) : Except GenError String :=
  match response.candidates with
  | [] => .error .noCandidates
  | c :: _ =>
    match findInlineData c.content.parts with
    | some d => .ok ("data:" ++ d.mimeType ++ ";base64," ++ d.data)
    | none => .error .noImage

/-- The model name constant of geminiService.ts. -/
def modelName : String := "gemini-2.5-flash-image"

/-- Lifts the transport outcome into the generation result: a
transport failure becomes a service error, a response is fed to
extractImage. -/
def finishGen (r : Except String GenerateContentResponse) : Except GenError String :=
  match r with
  | .error msg => .error (.service msg)
  | .ok response => extractImage response

/-- The request record built by generateImage: a single text part and
image response modality. -/
def generateRequest (prompt : String) : GenRequest :=
  { model := modelName, parts := [.text prompt], responseModalities := [.IMAGE] }

/-- generateImage of geminiService.ts: check the key via getAiClient,
then submit the text-only request and extract the image. -/
def generateImage (env : ApiEnv) (net : GenNet) (prompt : String) : Except GenError String :=
  match getAiClient env with
  | .error e => .error e
  | .ok _ => finishGen (net (generateRequest prompt))

/-- The JavaScript split of s at commas taken at index 1: the element
at index 1 of the split list, undefined (none) when absent. -/
def jsSplitComma1 (s : String) : Option String :=
  (s.splitOn ",")[1]?

/-- The request record built by editImage: the inlineData part holding
the payload split from the source data URI and its MIME type, followed
by the text part. -/
def editRequest (prompt : String) (base64Data : Option String) (mimeType : String) : GenRequest :=
  { model := modelName,
    parts := [.inlineData base64Data mimeType, .text prompt],
    responseModalities := [.IMAGE] }

/-- editImage of geminiService.ts: check the key via getAiClient,
split the data URI payload, submit the inline-data plus text request
and extract the image. -/
def editImage (env : ApiEnv) (net : GenNet) (prompt imageBase64 mimeType : String) :
    Except GenError String :=
  match getAiClient env with
  | .error e => .error e
  | .ok _ => finishGen (net (editRequest prompt (jsSplitComma1 imageBase64) mimeType))

/-! Dispatch client (the telegram service file, src/unnamed/part_001) -/

/-- The JavaScript indexOf on s for a one-character needle c: the
index of the first occurrence, or minus one when absent. -/
def jsIndexOfChar (s : String) (c : Char) : Int :=
  match s.data.findIdx? (fun x => x = c) with
  | some i => (i : Int)
  | none => -1

/-- The JavaScript substring of s between positions a and b: both
arguments are clamped to the range from zero to the length, swapped
when out of order, and the character range between them is returned. -/
def jsSubstring (s : String) (a b : Int) : String :=
  let n : Int := (s.length : Int)
  let a1 := (min (max a 0) n).toNat
  let b1 := (min (max b 0) n).toNat
  let lo := min a1 b1
  let hi := max a1 b1
  String.mk ((s.data.drop lo).take (hi - lo))

/-- The MIME extraction of sendPhoto: the substring of the data URI
between the first colon (exclusive) and the first semicolon. -/
def extractMime (imageBase64 : String) : String :=
  jsSubstring imageBase64 (jsIndexOfChar imageBase64 ':' + 1) (jsIndexOfChar imageBase64 ';')

/-- The multipart submission assembled by sendPhoto: the endpoint URL
(parameterized by the token), the chat_id field, the photo field
(recorded as the data URI handed to the external base64ToBlob helper
together with the MIME type passed to it), the fixed attachment
filename, and the caption field. -/
structure SendRequest where
  url : String
  chatId : String
  photo : String
  photoMime : String
  filename : String
  caption : String
deriving DecidableEq, Repr

/-- The HTTP outcome of the messaging service: the ok flag of the
fetch response, and the description field of the parsed JSON error
body (none when the field is absent). -/
structure HttpResponse where
  ok : Bool
  description : Option String
deriving DecidableEq, Repr

/-- The network boundary of the dispatch client: a function from the
submitted multipart request to the HTTP outcome. -/
abbrev SendNet := SendRequest → HttpResponse

/-- The request record sendPhoto builds from its four arguments. -/
def sendRequest (token chatId imageBase64 caption : String) : SendRequest :=
  { url := "https://api.telegram.org/bot" ++ token ++ "/sendPhoto",
    chatId := chatId,
    photo := imageBase64,
    photoMime := extractMime imageBase64,
    filename := "generated-image.png",
    caption := caption }

/-- sendPhoto of the telegram service: build the multipart request,
submit it, succeed on an ok response, and otherwise throw the
description field of the JSON error body when it is truthy (present
and non-empty), else the generic failure message. -/
def sendPhoto (net : SendNet) (token chatId imageBase64 caption : String) :
    Except String Unit :=
  let response := net (sendRequest token chatId imageBase64 caption)
  if response.ok then
    .ok ()
  else
    match response.description with
    | some d => if d.isEmpty then .error "Telegram API request failed" else .error d
    | none => .error "Telegram API request failed"

/-! Workflow controller (App.tsx handlers) -/

/-- A file handle from the file input; only the name matters to the
controller, the bytes are consumed by the external fileToBase64. -/
structure JsFile where
  name : String
deriving DecidableEq, Repr

/-- The record fileToBase64 resolves with: the data URI and the
reported MIME type. fileToBase64 itself lives in utils/fileUtils,
outside the embedded sources, so handleFileChange receives its outcome
as an argument; per the spec it yields this record or fails with a
read error (modelled as the Unit error). -/
structure EncodedImage where
  base64 : String
  mimeType : String
deriving DecidableEq, Repr

/-- handleFileChange of App.tsx: with no selected file, nothing
happens; on a successful read, the uploadedImage slot is set from the
encoded result and the file name and generatedImage is cleared; on a
read failure, only the failure status is set. -/
def handleFileChange (s : AppState) (file : Option JsFile) (read : Except Unit EncodedImage) :
    AppState :=
  match file with
  | none => s
  | some f =>
    match read with
    | .ok enc =>
      { s with uploadedImage := some { base64 := enc.base64, name := f.name, mimeType := enc.mimeType },
               generatedImage := none }
    | .error _ => { s with status := some { type := .error, message := "Failed to read the image file." } }

/-- The onClick of the remove button on the source-image preview in
App.tsx: setUploadedImage(null) and nothing else. -/
def removeSourceImage (s : AppState) : AppState :=
  { s with uploadedImage := none }

/-- The generation call handleGenerate awaits: editImage on the
uploaded image when one is set, else generateImage. -/
def requestedGeneration (env : ApiEnv) (net : GenNet) (s : AppState) : Except GenError String :=
  match s.uploadedImage with
  | some img => editImage env net s.prompt img.base64 img.mimeType
  | none => generateImage env net s.prompt

/-- The body of handleGenerate after the prompt guard: set loading,
clear status and the previous artifact, then either store the new
artifact or store the failure status, and finally clear loading. -/
def settleGenerate (s : AppState) (result : Except GenError String) : AppState :=
  let s1 := { s with isLoading := true, status := none, generatedImage := none }
  match result with
  | .ok r => { s1 with generatedImage := some r, isLoading := false }
  | .error e =>
    { s1 with status := some { type := .error,
                               message := "An error occurred while generating the image: " ++ e.message },
              isLoading := false }

/-- handleGenerate of App.tsx: reject an empty prompt with the prompt
status message and no other change; otherwise run the requested
generation and settle the resulting state. -/
def handleGenerate (env : ApiEnv) (net : GenNet) (s : AppState) : AppState :=
  if s.prompt.isEmpty then
    { s with status := some { type := .error, message := "Please enter a prompt." } }
  else
    settleGenerate s (requestedGeneration env net s)

/-- The body of handleSend after its two guards: set loading, clear
status, then store the success status or the prefixed failure status,
and finally clear loading. -/
def settleSend (s : AppState) (result : Except String Unit) : AppState :=
  let s1 := { s with isLoading := true, status := none }
  match result with
  | .ok _ =>
    { s1 with status := some { type := .success, message := "Image sent to Telegram successfully!" },
              isLoading := false }
  | .error msg =>
    { s1 with status := some { type := .error,
                               message := "Failed to send image to Telegram: " ++ msg },
              isLoading := false }

/-- handleSend of App.tsx: reject when no generated image exists;
reject when either credential is empty, additionally revealing the
configuration surface; otherwise dispatch the image with the prompt as
caption and settle the resulting state. -/
def handleSend (net : SendNet) (s : AppState) : AppState :=
  match s.generatedImage with
  | none => { s with status := some { type := .error, message := "No image to send." } }
  | some img =>
    if s.botToken.isEmpty || s.chatId.isEmpty then
      { s with status := some { type := .error, message := "Telegram Bot Token and Chat ID are required." },
               showConfig := true }
    else
      settleSend s (sendPhoto net s.botToken s.chatId img s.prompt)

/-! Helper lemmas and concrete fixtures -/

/-- The loop of extractImage picks exactly the head of the inlineData
fragments of the parts list, in order. -/
theorem findInlineData_eq_head (ps : List ResponsePart) :
    findInlineData ps = (ps.filterMap ResponsePart.inlineData).head? := by
  induction ps with
  | nil => rfl
  | cons p ps ih =>
    cases h : p.inlineData with
    | none => simp [findInlineData, List.filterMap_cons, h, ih]
    | some d => simp [findInlineData, List.filterMap_cons, h]

/-- A configured key makes getAiClient succeed. -/
theorem getAiClient_of_configured (env : ApiEnv) (h : keyConfigured env = true) :
    getAiClient env = .ok () := by
  cases env with
  | mk key =>
    cases key with
    | none => simp [keyConfigured] at h
    | some k =>
      cases hk : k.isEmpty with
      | false => simp [getAiClient, hk]
      | true => simp [keyConfigured, hk] at h

/-- An unconfigured key makes getAiClient throw the missing-key
error. -/
theorem getAiClient_of_not_configured (env : ApiEnv) (h : keyConfigured env = false) :
    getAiClient env = .error .missingKey := by
  cases env with
  | mk key =>
    cases key with
    | none => rfl
    | some k =>
      cases hk : k.isEmpty with
      | true => simp [getAiClient, hk]
      | false => simp [keyConfigured, hk] at h

/-- A fully populated workflow state used as the base point of the
concrete evaluations. -/
def baseState : AppState :=
  { botToken := "bot-token", chatId := "42", prompt := "cat",
    uploadedImage := none, generatedImage := none, isLoading := false,
    status := none, showConfig := true, showHelp := false, isApiKeyMissing := false }

/-- An environment with the generation-service key unset. -/
def envNoKey : ApiEnv := { apiKey := none }

/-- An environment with the generation-service key configured. -/
def envWithKey : ApiEnv := { apiKey := some "k" }

/-- A generation network stub that always fails at the transport
level. -/
def netUnreachable : GenNet := fun _ => .error "network unreachable"

/-- The response of the spec scenario: one candidate whose single part
is the inline PNG payload QQ==. -/
def scenarioResponse : GenerateContentResponse :=
  { candidates := [ { content := { parts :=
      [ { text := none, inlineData := some { data := "QQ==", mimeType := "image/png" } } ] } } ] }

/-- A generation network stub that always returns the scenario
response. -/
def netOkGen : GenNet := fun _ => .ok scenarioResponse

/-- A dispatch network stub that always reports an ok response. -/
def sendNetOk : SendNet := fun _ => { ok := true, description := none }

/-! Claims -/

/-- Concrete state for the C1 counterexample: a source image and a
generated artifact are both present. -/
def stateWithResult : AppState :=
  { baseState with
    uploadedImage := some { base64 := "data:image/png;base64,AAAA", name := "cat.png", mimeType := "image/png" },
    generatedImage := some "data:image/png;base64,QQ==" }

/-- C1 counterexample: in a state holding a generated artifact,
clicking the remove button on the source image (setUploadedImage null
and nothing else) leaves the artifact present, refuting the part of
the claim that says clearing the SourceImage clears any existing
GeneratedArtifact. -/
theorem claim_C1_cex :
    stateWithResult.generatedImage = some "data:image/png;base64,QQ=="
    ∧ (removeSourceImage stateWithResult).uploadedImage = none
    ∧ ¬ (removeSourceImage stateWithResult).generatedImage = none := by
  refine ⟨rfl, rfl, ?_⟩
  decide

/-- C1 (amended): uploading a new SourceImage leaves the RequestPhase
(isLoading) unchanged and clears any existing GeneratedArtifact;
clearing the SourceImage leaves the RequestPhase unchanged and leaves
the GeneratedArtifact exactly as it was (it is not cleared). -/
theorem claim_C1_amended (s : AppState) (f : JsFile) (enc : EncodedImage) :
    ((handleFileChange s (some f) (.ok enc)).isLoading = s.isLoading
      ∧ (handleFileChange s (some f) (.ok enc)).generatedImage = none
      ∧ (handleFileChange s (some f) (.ok enc)).uploadedImage
          = some { base64 := enc.base64, name := f.name, mimeType := enc.mimeType })
    ∧ ((removeSourceImage s).isLoading = s.isLoading
      ∧ (removeSourceImage s).generatedImage = s.generatedImage
      ∧ (removeSourceImage s).uploadedImage = none) :=
  ⟨⟨rfl, rfl, rfl⟩, rfl, rfl, rfl⟩

/-- Whether any candidate of a response carries an inline-data part
anywhere in its parts list. -/
def responseHasInline (r : GenerateContentResponse) : Bool :=
  r.candidates.any (fun c => c.content.parts.any (fun p => p.inlineData.isSome))

/-- Concrete response for the C2 counterexample: the first candidate
has only a text part, the second candidate carries the inline image. -/
def twoCandidateResponse : GenerateContentResponse :=
  { candidates :=
      [ { content := { parts := [ { text := some "no image here", inlineData := none } ] } },
        { content := { parts :=
            [ { text := none, inlineData := some { data := "QQ==", mimeType := "image/png" } } ] } } ] }

/-- C2 counterexample: extractImage throws the no-image error on a
response whose second candidate does carry an inline-data part, so
the claimed equivalence (fails if and only if no inline-data part
exists in any candidate) is false: only the first candidate is ever
scanned. -/
theorem claim_C2_cex :
    extractImage twoCandidateResponse = .error .noImage
    ∧ responseHasInline twoCandidateResponse = true :=
  ⟨rfl, rfl⟩

/-- C2 (amended): for a response with at least one candidate, the
extractor returns the data URI built from the first inline-data part
of the FIRST candidate, scanning its parts in order, and fails with
the no-image error exactly when the first candidate has no inline-data
part; later candidates are never consulted. The scenario instance
(inline part QQ== of type image/png yields
data:image/png;base64,QQ==) follows at the witness. -/
theorem claim_C2_amended (r : GenerateContentResponse) (c : Candidate) (rest : List Candidate)
    (h : r.candidates = c :: rest) :
    extractImage r =
      match (c.content.parts.filterMap ResponsePart.inlineData).head? with
      | some d => .ok ("data:" ++ d.mimeType ++ ";base64," ++ d.data)
      | none => .error .noImage := by
  obtain ⟨cands⟩ := r
  cases h
  rw [← findInlineData_eq_head]
  rfl

/-- C2 witness: the amended theorem applied to the scenario response
yields exactly the data URI of the spec scenario. -/
theorem claim_C2_witness :
    extractImage scenarioResponse = .ok "data:image/png;base64,QQ==" := by
  have h := claim_C2_amended scenarioResponse
    { content := { parts :=
        [ { text := none, inlineData := some { data := "QQ==", mimeType := "image/png" } } ] } }
    [] rfl
  simpa using h

/-- C3 (confirmed): with the generation-service key unconfigured, both
generateImage and editImage return the missing-key error for every
network stub (the right-hand sides never mention the network function,
so no network call is made), and handleGenerate on a non-empty prompt
ends with a Failure status carrying the missing-key message class
while the GeneratedArtifact stays absent. -/
theorem claim_C3 (env : ApiEnv) (net : GenNet) (s : AppState) (hk : keyConfigured env = false) :
    (∀ p, generateImage env net p = .error .missingKey)
    ∧ (∀ p b m, editImage env net p b m = .error .missingKey)
    ∧ (s.prompt.isEmpty = false →
        handleGenerate env net s
          = { s with generatedImage := none, isLoading := false,
                     status := some { type := .error, message := "An error occurred while generating the image: " ++ "Google AI API Key is not configured. Please set the API_KEY environment variable in your deployment settings." } }) := by
  have hgc := getAiClient_of_not_configured env hk
  refine ⟨fun p => by simp [generateImage, hgc], fun p b m => by simp [editImage, hgc], fun hp => ?_⟩
  cases hu : s.uploadedImage with
  | none =>
    simp [handleGenerate, hp, requestedGeneration, hu, generateImage, hgc, settleGenerate,
      GenError.message]
  | some img =>
    simp [handleGenerate, hp, requestedGeneration, hu, editImage, hgc, settleGenerate,
      GenError.message]

/-- C3 witness: the theorem instantiated at the empty environment, an
unreachable network and the base state. -/
theorem claim_C3_witness :
    generateImage envNoKey netUnreachable "cat" = .error .missingKey
    ∧ editImage envNoKey netUnreachable "cat" "data:image/png;base64,AAAA" "image/png"
        = .error .missingKey
    ∧ handleGenerate envNoKey netUnreachable baseState
        = { baseState with generatedImage := none, isLoading := false,
                           status := some { type := .error, message := "An error occurred while generating the image: " ++ "Google AI API Key is not configured. Please set the API_KEY environment variable in your deployment settings." } } :=
  ⟨(claim_C3 envNoKey netUnreachable baseState rfl).1 "cat",
   (claim_C3 envNoKey netUnreachable baseState rfl).2.1 "cat" "data:image/png;base64,AAAA" "image/png",
   (claim_C3 envNoKey netUnreachable baseState rfl).2.2 rfl⟩

/-- C5 (confirmed): with an empty prompt, handleGenerate only sets the
validation failure status; every other field of the state, including
the RequestPhase (isLoading) and the GeneratedArtifact, is untouched,
and the right-hand side never mentions the network function, so no
network call is made. -/
theorem claim_C5 (env : ApiEnv) (net : GenNet) (s : AppState) (hp : s.prompt = "") :
    handleGenerate env net s
      = { s with status := some { type := .error, message := "Please enter a prompt." } } := by
  unfold handleGenerate
  rw [hp]
  rfl

/-- C5 witness: the theorem instantiated at the base state with the
prompt blanked. -/
theorem claim_C5_witness :
    handleGenerate envNoKey netUnreachable { baseState with prompt := "" }
      = { baseState with prompt := "",
                         status := some { type := .error, message := "Please enter a prompt." } } :=
  claim_C5 envNoKey netUnreachable { baseState with prompt := "" } rfl

/-- C6 (confirmed): with no generated artifact, handleSend only sets
the nothing-to-send failure status; with an artifact but an empty
credential, handleSend sets the credentials failure status and reveals
the configuration surface. In both cases the right-hand side never
mentions the dispatch network function, so the Dispatch Client is
never called. -/
theorem claim_C6 (net : SendNet) (s : AppState) :
    (s.generatedImage = none →
        handleSend net s
          = { s with status := some { type := .error, message := "No image to send." } })
    ∧ (∀ img, s.generatedImage = some img →
        (s.botToken.isEmpty || s.chatId.isEmpty) = true →
        handleSend net s
          = { s with status := some { type := .error, message := "Telegram Bot Token and Chat ID are required." },
                     showConfig := true }) := by
  constructor
  · intro h
    simp [handleSend, h]
  · intro img h hcred
    simp [handleSend, h, hcred]

/-- C6 witness: the theorem instantiated at the base state (no
artifact) and at a state with an artifact but an empty token. -/
theorem claim_C6_witness :
    handleSend sendNetOk baseState
      = { baseState with status := some { type := .error, message := "No image to send." } }
    ∧ handleSend sendNetOk { baseState with botToken := "", generatedImage := some "g" }
      = { baseState with botToken := "", generatedImage := some "g",
                         status := some { type := .error, message := "Telegram Bot Token and Chat ID are required." },
                         showConfig := true } :=
  ⟨(claim_C6 sendNetOk baseState).1 rfl,
   (claim_C6 sendNetOk { baseState with botToken := "", generatedImage := some "g" }).2 "g" rfl rfl⟩

/-- A dispatch network stub reporting a failed response whose JSON
body carries an empty description field. -/
def sendNetEmptyDescription : SendNet := fun _ => { ok := false, description := some "" }

/-- C4 counterexample: on a failed response whose body carries the
description field with the empty string as value (the field is
present), sendPhoto raises the generic failure message instead of the
service-reported description, because the source applies JavaScript
truthiness to the field; this refutes the claim that the description
is used whenever the field is present. -/
theorem claim_C4_cex :
    (sendNetEmptyDescription (sendRequest "bot-token" "42" "data:image/png;base64,QQ==" "cat")).description
        = some ""
    ∧ sendPhoto sendNetEmptyDescription "bot-token" "42" "data:image/png;base64,QQ==" "cat"
        = .error "Telegram API request failed"
    ∧ ¬ ("Telegram API request failed" : String) = "" :=
  ⟨rfl, rfl, by decide⟩

/-- C4 (amended): on a non-success HTTP status, sendPhoto fails with
the service-reported description field when it is present AND
non-empty (JavaScript truthiness), else with the generic failure
message; handleSend then stores Failure with that message prefixed by
the fixed sending-failure prefix. -/
theorem claim_C4_amended (net : SendNet) (s : AppState) (img : String)
    (h1 : s.generatedImage = some img)
    (h2 : s.botToken.isEmpty = false) (h3 : s.chatId.isEmpty = false)
    (h4 : (net (sendRequest s.botToken s.chatId img s.prompt)).ok = false) :
    (∀ d, (net (sendRequest s.botToken s.chatId img s.prompt)).description = some d →
        d.isEmpty = false →
        handleSend net s
          = { s with isLoading := false,
                     status := some { type := .error, message := "Failed to send image to Telegram: " ++ d } })
    ∧ ((net (sendRequest s.botToken s.chatId img s.prompt)).description = none
        ∨ (net (sendRequest s.botToken s.chatId img s.prompt)).description = some "" →
        handleSend net s
          = { s with isLoading := false,
                     status := some { type := .error, message := "Failed to send image to Telegram: " ++ "Telegram API request failed" } }) := by
  constructor
  · intro d hd hne
    simp [handleSend, h1, h2, h3, sendPhoto, settleSend, h4, hd, hne]
  · have he : ("" : String).isEmpty = true := rfl
    rintro (hd | hd) <;>
      simp [handleSend, h1, h2, h3, sendPhoto, settleSend, h4, hd, he]

/-- A dispatch network stub reporting the chat-not-found failure of
the spec scenario. -/
def sendNetChatNotFound : SendNet := fun _ => { ok := false, description := some "chat not found" }

/-- The base state with the scenario artifact present, used for the
dispatch-side concrete evaluations. -/
def stateReadyToSend : AppState :=
  { baseState with generatedImage := some "data:image/png;base64,QQ==" }

/-- C4 witness: the amended theorem instantiated at the scenario of
the spec, a 400-class response with description chat not found, gives
the prefixed failure status. -/
theorem claim_C4_witness :
    handleSend sendNetChatNotFound stateReadyToSend
      = { stateReadyToSend with
          isLoading := false,
          status := some { type := .error, message := "Failed to send image to Telegram: " ++ "chat not found" } } :=
  (claim_C4_amended sendNetChatNotFound stateReadyToSend "data:image/png;base64,QQ=="
      rfl rfl rfl rfl).1 "chat not found" rfl rfl

/-- The image record used for the edit-mode concrete evaluations. -/
def uploadedFixture : UploadedImage :=
  { base64 := "data:image/png;base64,AAAA", name := "cat.png", mimeType := "image/png" }

/-- C7 (confirmed): on a non-empty prompt with the key configured,
when a SourceImage is present the state update is a function of the
network evaluated exactly at the edit request, whose inline-data part
holds exactly the split payload of that image and its MIME type; when
no SourceImage is present it is a function of the network evaluated
exactly at the text-only generate request, whose parts list is a
single text part (so the edit path is never taken). -/
theorem claim_C7 (env : ApiEnv) (net : GenNet) (s : AppState)
    (hp : s.prompt.isEmpty = false) (hk : keyConfigured env = true) :
    (∀ img, s.uploadedImage = some img →
        handleGenerate env net s
          = settleGenerate s (finishGen (net (editRequest s.prompt (jsSplitComma1 img.base64) img.mimeType))))
    ∧ (s.uploadedImage = none →
        handleGenerate env net s
          = settleGenerate s (finishGen (net (generateRequest s.prompt)))
        ∧ (generateRequest s.prompt).parts = [ReqPart.text s.prompt]) := by
  have hok := getAiClient_of_configured env hk
  constructor
  · intro img hu
    simp [handleGenerate, hp, requestedGeneration, hu, editImage, hok]
  · intro hu
    exact ⟨by simp [handleGenerate, hp, requestedGeneration, hu, generateImage, hok], rfl⟩

/-- C7 witness: the theorem instantiated with and without a source
image; the resulting states are evaluated on the scenario network. -/
theorem claim_C7_witness :
    handleGenerate envWithKey netOkGen { baseState with uploadedImage := some uploadedFixture }
      = { baseState with uploadedImage := some uploadedFixture,
                         generatedImage := some "data:image/png;base64,QQ==" }
    ∧ handleGenerate envWithKey netOkGen baseState
      = { baseState with generatedImage := some "data:image/png;base64,QQ==" } := by
  constructor
  · exact ((claim_C7 envWithKey netOkGen { baseState with uploadedImage := some uploadedFixture }
      rfl rfl).1 uploadedFixture rfl).trans (by decide)
  · exact (((claim_C7 envWithKey netOkGen baseState rfl rfl).2 rfl).1).trans (by decide)

/-- C8 (confirmed): on a non-empty prompt, the outcome of
handleGenerate is the same as from the state whose prior
GeneratedArtifact and OperationStatus are already cleared (they are
cleared first and never influence the attempt), and whenever the
awaited generation fails, the final state carries the Failure status,
is back at Idle (isLoading false) and has no GeneratedArtifact. -/
theorem claim_C8 (env : ApiEnv) (net : GenNet) (s : AppState) (hp : s.prompt.isEmpty = false) :
    handleGenerate env net s
      = handleGenerate env net { s with generatedImage := none, status := none }
    ∧ (∀ e, requestedGeneration env net s = .error e →
        handleGenerate env net s
          = { s with generatedImage := none, isLoading := false,
                     status := some { type := .error, message := "An error occurred while generating the image: " ++ e.message } }) := by
  constructor
  · simp [handleGenerate, hp, requestedGeneration, settleGenerate]
  · intro e he
    simp [handleGenerate, hp, he, settleGenerate]

/-- State with a stale artifact and a stale status, used to
instantiate the clearing behaviour of a new generation attempt. -/
def stateWithStale : AppState :=
  { baseState with generatedImage := some "data:image/png;base64,OLD=",
                   status := some { type := .error, message := "previous failure" } }

/-- C8 witness: the theorem instantiated at a state carrying a stale
artifact and status, on an attempt that fails with the missing-key
error. -/
theorem claim_C8_witness :
    handleGenerate envNoKey netUnreachable stateWithStale
      = handleGenerate envNoKey netUnreachable { stateWithStale with generatedImage := none, status := none }
    ∧ handleGenerate envNoKey netUnreachable stateWithStale
      = { stateWithStale with generatedImage := none, isLoading := false,
                              status := some { type := .error, message := "An error occurred while generating the image: " ++ GenError.message GenError.missingKey } } :=
  ⟨(claim_C8 envNoKey netUnreachable stateWithStale rfl).1,
   (claim_C8 envNoKey netUnreachable stateWithStale rfl).2 GenError.missingKey rfl⟩

/-- C9 (confirmed): on a send that passes both guards and succeeds,
the caption field of the multipart submission handed to the dispatch
network is exactly the prompt of the state at the time of the call,
and the call ends in the success status. -/
theorem claim_C9 (net : SendNet) (s : AppState) (img : String)
    (h1 : s.generatedImage = some img)
    (h2 : s.botToken.isEmpty = false) (h3 : s.chatId.isEmpty = false)
    (h4 : (net (sendRequest s.botToken s.chatId img s.prompt)).ok = true) :
    (sendRequest s.botToken s.chatId img s.prompt).caption = s.prompt
    ∧ handleSend net s
      = settleSend s (sendPhoto net s.botToken s.chatId img s.prompt)
    ∧ handleSend net s
      = { s with isLoading := false,
                 status := some { type := .success, message := "Image sent to Telegram successfully!" } } := by
  refine ⟨rfl, ?_, ?_⟩
  · simp [handleSend, h1, h2, h3]
  · simp [handleSend, h1, h2, h3, sendPhoto, settleSend, h4]

/-- C9 witness: the theorem instantiated at the ready state and an
always-ok dispatch network; the caption is the prompt cat. -/
theorem claim_C9_witness :
    (sendRequest "bot-token" "42" "data:image/png;base64,QQ==" "cat").caption = "cat"
    ∧ handleSend sendNetOk stateReadyToSend
      = settleSend stateReadyToSend
          (sendPhoto sendNetOk "bot-token" "42" "data:image/png;base64,QQ==" "cat")
    ∧ handleSend sendNetOk stateReadyToSend
      = { stateReadyToSend with
          isLoading := false,
          status := some { type := .success, message := "Image sent to Telegram successfully!" } } :=
  claim_C9 sendNetOk stateReadyToSend "data:image/png;base64,QQ==" rfl rfl rfl rfl

/-- C10 (confirmed): a send that passes both guards and succeeds
changes only the OperationStatus and the RequestPhase slots: the
final state is the pre-state with isLoading false and the success
status, so the GeneratedArtifact, SourceImage, Prompt and both
credential fields are untouched and the artifact is not consumed. -/
theorem claim_C10 (net : SendNet) (s : AppState) (img : String)
    (h1 : s.generatedImage = some img)
    (h2 : s.botToken.isEmpty = false) (h3 : s.chatId.isEmpty = false)
    (h4 : (net (sendRequest s.botToken s.chatId img s.prompt)).ok = true) :
    handleSend net s
      = { s with isLoading := false,
                 status := some { type := .success, message := "Image sent to Telegram successfully!" } }
    ∧ (handleSend net s).generatedImage = some img
    ∧ (handleSend net s).uploadedImage = s.uploadedImage
    ∧ (handleSend net s).prompt = s.prompt
    ∧ (handleSend net s).botToken = s.botToken
    ∧ (handleSend net s).chatId = s.chatId := by
  have h : handleSend net s
      = { s with isLoading := false,
                 status := some { type := .success, message := "Image sent to Telegram successfully!" } } := by
    simp [handleSend, h1, h2, h3, sendPhoto, settleSend, h4]
  exact ⟨h, by rw [h]; exact h1, by rw [h], by rw [h], by rw [h], by rw [h]⟩

/-- State for the C10 witness: the ready state with a distinct token,
chat id, prompt and a source image also present. -/
def stateReadyFull : AppState :=
  { stateReadyToSend with uploadedImage := some uploadedFixture }

/-- C10 witness: the theorem instantiated at a fully populated state
and an always-ok dispatch network. -/
theorem claim_C10_witness :
    handleSend sendNetOk stateReadyFull
      = { stateReadyFull with
          isLoading := false,
          status := some { type := .success, message := "Image sent to Telegram successfully!" } }
    ∧ (handleSend sendNetOk stateReadyFull).generatedImage = some "data:image/png;base64,QQ=="
    ∧ (handleSend sendNetOk stateReadyFull).uploadedImage = stateReadyFull.uploadedImage
    ∧ (handleSend sendNetOk stateReadyFull).prompt = stateReadyFull.prompt
    ∧ (handleSend sendNetOk stateReadyFull).botToken = stateReadyFull.botToken
    ∧ (handleSend sendNetOk stateReadyFull).chatId = stateReadyFull.chatId :=
  claim_C10 sendNetOk stateReadyFull "data:image/png;base64,QQ==" rfl rfl rfl rfl
